import Mathlib

/-!
# Formal model of the `pymstodo` Microsoft To-Do client library

A shallow embedding of `pymstodo/client.py` and
`pymstodo/windows_zones_adapter.py`.

Modelling conventions:
* JSON-decoded Python values are the inductive `Json`; a Python `dict` of
  keyword arguments is a `List (String × Json)` looked up with `List.lookup`
  (first match, as in a `dict` there is at most one entry per key).
* Python `None` for a possibly-absent value is `Option.none`.
* Raising an exception is returning `Except.error` of an `Exc` value.
* The HTTP transport is an oracle `Request → Response`; the paginated
  task-listing endpoint is an oracle given as the finite chain of pages
  reachable from the initial URL via the `@odata.nextLink` field (the link
  is present exactly while further pages of the chain remain).
* `time.time()` and `expires_at` are rationals (real-valued clock).
* The Python standard-library datetime machinery (`datetime.fromisoformat`,
  `ZoneInfo`, `astimezone`, `strftime`) is an abstract environment
  `DatetimeEnv`; instants are represented by integers.
-/

set_option autoImplicit false

namespace Pymstodo

/-- JSON-decoded Python values. -/
inductive Json where
  | null
  | bool (b : Bool)
  | num (n : Int)
  | str (s : String)
  | arr (elems : List Json)
  | obj (fields : List (String × Json))

/-- Python truthiness of a JSON-decoded value (`bool(x)`). -/
def Json.truthy : Json → Bool
  | .null => false
  | .bool b => b
  | .num n => n != 0
  | .str s => s != ""
  | .arr l => !l.isEmpty
  | .obj l => !l.isEmpty

/-- `pymstodo.PymstodoError`: the single error type of the library.  Its
constructor formats the status code and reason into the exception message
(`Error {status_code}: {reason}`), exactly as `PymstodoError.__init__`. -/
structure PymstodoError where
  message : String
deriving Repr, DecidableEq

/-- `PymstodoError(status_code, reason)` (client.py lines 14-18). -/
def PymstodoError.ofStatus (status_code : Nat) (reason : String) : PymstodoError :=
  ⟨"Error " ++ toString status_code ++ ": " ++ reason⟩

/-- Python exceptions that the modelled code can raise. -/
inductive Exc where
  | api (e : PymstodoError)
  | keyError (key : String)
  | typeError (msg : String)
  | valueError (msg : String)
deriving Repr, DecidableEq

/-- Python subscription `j[key]` with a string key: a `dict` yields the value
or raises `KeyError`; any other JSON value raises `TypeError`. -/
def Json.getItem (j : Json) (key : String) : Except Exc Json :=
  match j with
  | .obj fields =>
    match fields.lookup key with
    | some v => .ok v
    | none => .error (.keyError key)
  | _ => .error (.typeError "object is not subscriptable")

/-- Python `str` extraction: library calls such as `datetime.fromisoformat`
raise `TypeError` when handed a non-string. -/
def Json.asString : Json → Except Exc String
  | .str s => .ok s
  | _ => .error (.typeError "expected str")

/-- Python iteration over a JSON-decoded value: lists yield their elements,
strings their characters, dicts their keys; other values raise `TypeError`. -/
def pyIter : Json → Except Exc (List Json)
  | .arr l => .ok l
  | .str s => .ok (s.toList.map (fun c => Json.str (String.mk [c])))
  | .obj l => .ok (l.map (fun kv => Json.str kv.1))
  | _ => .error (.typeError "object is not iterable")

/-! ## Timezone resolver (`windows_zones_adapter.py`)

The mapping table `windows_zones` is a data asset loaded from the
`windows_zones_data` file at import time; it is passed here as an explicit
association list. -/

/-- `get_zoneinfo_name_by_windows_zone` (windows_zones_adapter.py lines 9-10):
`windows_zones.get(windows_zone, windows_zone)`. -/
def get_zoneinfo_name_by_windows_zone (windows_zones : List (String × String))
    (windows_zone : String) : String :=
  (windows_zones.lookup windows_zone).getD windows_zone

/-! ## Enumerations -/

/-- `pymstodo.WellknownListName` (client.py lines 42-54). -/
inductive WellknownListName where
  | DEFAULT_LIST
  | FLAGGED_EMAILS
  | UNKNOWN_FUTURE_VALUE
deriving Repr, DecidableEq

/-- `WellknownListName(value)`: Python `Enum` lookup by value; any value
that is not one of the member values raises `ValueError`. -/
def WellknownListName.ofValue : Option Json → Except Exc WellknownListName
  | some (.str "defaultList") => .ok .DEFAULT_LIST
  | some (.str "flaggedEmails") => .ok .FLAGGED_EMAILS
  | some (.str "unknownFutureValue") => .ok .UNKNOWN_FUTURE_VALUE
  | _ => .error (.valueError "is not a valid WellknownListName")

/-- `pymstodo.TaskStatus` (client.py lines 57-73). -/
inductive TaskStatus where
  | NOT_STARTED
  | IN_PROGRESS
  | COMPLETED
  | WAITING_ON_OTHERS
  | DEFERRED
deriving Repr, DecidableEq

/-- `TaskStatus(value)`: Python `Enum` lookup by value; any value that is
not one of the member values (in particular `None`) raises `ValueError`. -/
def TaskStatus.ofValue : Option Json → Except Exc TaskStatus
  | some (.str "notStarted") => .ok .NOT_STARTED
  | some (.str "inProgress") => .ok .IN_PROGRESS
  | some (.str "completed") => .ok .COMPLETED
  | some (.str "waitingOnOthers") => .ok .WAITING_ON_OTHERS
  | some (.str "deferred") => .ok .DEFERRED
  | _ => .error (.valueError "is not a valid TaskStatus")

/-- `pymstodo.TaskStatusFilter` (client.py lines 76-88). -/
inductive TaskStatusFilter where
  | COMPLETED
  | NOT_COMPLETED
  | ALL
deriving Repr, DecidableEq

/-! ## Domain model: `TaskList` -/

/-- `pymstodo.TaskList` (client.py lines 91-124).  `TaskList.__init__` stores
`kwargs.get(...)` for every dataclass field, so each field holds the raw
JSON value or `None`. -/
structure TaskList where
  list_id : Option Json
  displayName : Option Json
  isOwner : Option Json
  isShared : Option Json
  wellknownListName : Option Json

/-- `TaskList(**kwargs)` (client.py lines 109-111): every field is populated
by `kwargs.get`, with the wire field `id` feeding `list_id`.  Total: the
constructor never raises. -/
def TaskList.fromKwargs (kwargs : List (String × Json)) : TaskList :=
  { list_id := kwargs.lookup "id"
    displayName := kwargs.lookup "displayName"
    isOwner := kwargs.lookup "isOwner"
    isShared := kwargs.lookup "isShared"
    wellknownListName := kwargs.lookup "wellknownListName" }

/-- `TaskList.link` (client.py lines 116-119): the body is the plain string
literal `'href=https://to-do.live.com/tasks/{self.list_id}'` (not an
f-string), so the placeholder is never expanded. -/
def TaskList.link (_t : TaskList) : String :=
  "href=https://to-do.live.com/tasks/\x7bself.list_id\x7d"

/-- `TaskList.wellknown_list_name` (client.py lines 121-124):
`None if self.wellknownListName == 'none' else WellknownListName(self.wellknownListName)`. -/
def TaskList.wellknown_list_name (t : TaskList) : Except Exc (Option WellknownListName) :=
  match t.wellknownListName with
  | some (.str "none") => .ok none
  | v => (WellknownListName.ofValue v).map some

/-! ## Domain model: `Task` -/

/-- Abstract model of the Python standard-library datetime machinery used by
the derived date accessors.  Instants are integers; zones are identified by
their string key.  `fromisoformat` may raise (malformed input), `zoneinfo`
may raise (unknown key); `astimezone` of an instant is total. -/
structure DatetimeEnv where
  fromisoformat : String → Except Exc Int
  zoneinfo : String → Except Exc String
  astimezone : Int → String → Int
  strftime : Int → String

/-- `pymstodo.Task` (client.py lines 127-234).  `Task.__init__` stores
`kwargs.get(...)` for every dataclass field, so each field holds the raw
JSON value or `None`. -/
structure Task where
  task_id : Option Json
  body : Option Json
  categories : Option Json
  completedDateTime : Option Json
  createdDateTime : Option Json
  dueDateTime : Option Json
  hasAttachments : Option Json
  title : Option Json
  importance : Option Json
  isReminderOn : Option Json
  lastModifiedDateTime : Option Json
  reminderDateTime : Option Json
  startDateTime : Option Json
  status : Option Json

/-- `Task(**kwargs)` (client.py lines 171-173): every field is populated by
`kwargs.get`, with the wire field `id` feeding `task_id`.  Total: the
constructor never raises. -/
def Task.fromKwargs (kwargs : List (String × Json)) : Task :=
  { task_id := kwargs.lookup "id"
    body := kwargs.lookup "body"
    categories := kwargs.lookup "categories"
    completedDateTime := kwargs.lookup "completedDateTime"
    createdDateTime := kwargs.lookup "createdDateTime"
    dueDateTime := kwargs.lookup "dueDateTime"
    hasAttachments := kwargs.lookup "hasAttachments"
    title := kwargs.lookup "title"
    importance := kwargs.lookup "importance"
    isReminderOn := kwargs.lookup "isReminderOn"
    lastModifiedDateTime := kwargs.lookup "lastModifiedDateTime"
    reminderDateTime := kwargs.lookup "reminderDateTime"
    startDateTime := kwargs.lookup "startDateTime"
    status := kwargs.lookup "status" }

/-- `Task.body_text` (client.py lines 182-187):
`if self.body: return self.body['content']` else `None`. -/
def Task.body_text (t : Task) : Except Exc (Option Json) :=
  match t.body with
  | some v => if v.truthy then (v.getItem "content").map some else .ok none
  | none => .ok none

/-- The common body of the four zoned date accessors (client.py line 193
and its three clones):
`datetime.fromisoformat(v['dateTime']).astimezone(ZoneInfo(get_zoneinfo_name_by_windows_zone(v['timeZone'])))`. -/
def zonedDateOf (env : DatetimeEnv) (windows_zones : List (String × String))
    (v : Json) : Except Exc Int := do
  let dts ← (← v.getItem "dateTime").asString
  let d ← env.fromisoformat dts
  let tzs ← (← v.getItem "timeZone").asString
  let z ← env.zoneinfo (get_zoneinfo_name_by_windows_zone windows_zones tzs)
  pure (env.astimezone d z)

/-- The common body of the two plain-UTC date accessors (client.py lines
200 and 214): `datetime.fromisoformat(v).astimezone(timezone.utc)`. -/
def utcDateOf (env : DatetimeEnv) (v : Json) : Except Exc Int := do
  let s ← v.asString
  let d ← env.fromisoformat s
  pure (env.astimezone d "UTC")

/-- `Task.completed_date` (client.py lines 189-194). -/
def Task.completed_date (env : DatetimeEnv) (windows_zones : List (String × String))
    (t : Task) : Except Exc (Option Int) :=
  match t.completedDateTime with
  | some v => if v.truthy then (zonedDateOf env windows_zones v).map some else .ok none
  | none => .ok none

/-- `Task.created_date` (client.py lines 196-201). -/
def Task.created_date (env : DatetimeEnv) (t : Task) : Except Exc (Option Int) :=
  match t.createdDateTime with
  | some v => if v.truthy then (utcDateOf env v).map some else .ok none
  | none => .ok none

/-- `Task.due_date` (client.py lines 203-208). -/
def Task.due_date (env : DatetimeEnv) (windows_zones : List (String × String))
    (t : Task) : Except Exc (Option Int) :=
  match t.dueDateTime with
  | some v => if v.truthy then (zonedDateOf env windows_zones v).map some else .ok none
  | none => .ok none

/-- `Task.last_mod_date` (client.py lines 210-215). -/
def Task.last_mod_date (env : DatetimeEnv) (t : Task) : Except Exc (Option Int) :=
  match t.lastModifiedDateTime with
  | some v => if v.truthy then (utcDateOf env v).map some else .ok none
  | none => .ok none

/-- `Task.reminder_date` (client.py lines 217-222). -/
def Task.reminder_date (env : DatetimeEnv) (windows_zones : List (String × String))
    (t : Task) : Except Exc (Option Int) :=
  match t.reminderDateTime with
  | some v => if v.truthy then (zonedDateOf env windows_zones v).map some else .ok none
  | none => .ok none

/-- `Task.start_date` (client.py lines 224-229). -/
def Task.start_date (env : DatetimeEnv) (windows_zones : List (String × String))
    (t : Task) : Except Exc (Option Int) :=
  match t.startDateTime with
  | some v => if v.truthy then (zonedDateOf env windows_zones v).map some else .ok none
  | none => .ok none

/-- `Task.task_status` (client.py lines 231-234): `TaskStatus(self.status)`. -/
def Task.task_status (t : Task) : Except Exc TaskStatus :=
  TaskStatus.ofValue t.status

/-! ## Session/token manager -/

/-- `pymstodo.Token` (client.py lines 21-29).  `expires_at` is a real-valued
epoch timestamp, modelled as a rational. -/
structure Token where
  token_type : String
  scope : List String
  expires_in : Int
  ext_expires_in : Int
  access_token : String
  refresh_token : String
  id_token : String
  expires_at : ℚ
deriving Repr, DecidableEq

/-- `ToDoConnection._refresh_token` (client.py lines 281-289), as a step on
the stored credential.  `now` is the value of `time.time()`;
`refreshCall` is the outcome the transport would give to the single
`oa_sess.refresh_token(...)` exchange (a new token, or an exception).
Returns the Python outcome (`.ok ()` or a propagated exception), the stored
credential after the step, and the number of network refresh calls made. -/
def _refresh_token (now : ℚ) (refreshCall : Except Exc Token) (token : Token) :
    Except Exc Unit × Token × Nat :=
  let expire_time := token.expires_at - 300
  if now ≥ expire_time then
    match refreshCall with
    | .ok new_token => (.ok (), new_token, 1)
    | .error e => (.error e, token, 1)
  else (.ok (), token, 0)

/-! ## API client (`ToDoConnection`)

Every unary operation issues exactly one HTTP request; the transport is the
oracle `server : Request → Response`.  The `_refresh_token` prelude of every
operation is the step modelled above; the response handling below models the
rest of each method body. -/

/-- An HTTP request issued by the client: method, URL, and the optional
`json=` payload. -/
structure Request where
  method : String
  url : String
  payload : Option Json

/-- An HTTP response: numeric status code, reason phrase, and the
JSON-decoded body (`json.loads(resp.content.decode())`). -/
structure Response where
  status_code : Nat
  reason : String
  content : Json

/-- `requests.Response.ok`: `True` iff the status code is below 400. -/
def Response.ok (r : Response) : Bool := r.status_code < 400

/-- `ToDoConnection._base_api_url` (client.py line 250). -/
def base_api_url : String := "https://graph.microsoft.com/v1.0/me/todo/"

/-- Python `str(x)` for an `int | None` value interpolated into an f-string. -/
def pyStr : Option Int → String
  | none => "None"
  | some l => toString l

/-- `[TaskList(**list_data) for list_data in contents]`: each element must be
a mapping, otherwise `TaskList(**...)` raises `TypeError`. -/
def taskListsOf : List Json → Except Exc (List TaskList)
  | [] => .ok []
  | .obj fields :: rest => (taskListsOf rest).map (TaskList.fromKwargs fields :: ·)
  | _ :: _ => .error (.typeError "argument after ** must be a mapping")

/-- `[Task(**task_data) for task_data in contents]`. -/
def tasksOfContents : List Json → Except Exc (List Task)
  | [] => .ok []
  | .obj fields :: rest => (tasksOfContents rest).map (Task.fromKwargs fields :: ·)
  | _ :: _ => .error (.typeError "argument after ** must be a mapping")

/-- `TaskList(**contents)` applied to a whole decoded response body. -/
def taskListOf : Json → Except Exc TaskList
  | .obj fields => .ok (TaskList.fromKwargs fields)
  | _ => .error (.typeError "argument after ** must be a mapping")

/-- `Task(**contents)` applied to a whole decoded response body. -/
def taskOf : Json → Except Exc Task
  | .obj fields => .ok (Task.fromKwargs fields)
  | _ => .error (.typeError "argument after ** must be a mapping")

/-- `ToDoConnection.get_lists` (client.py lines 291-310), after the token
refresh: one GET, raise `PymstodoError` on a non-ok status, else decode
`['value']` and map every element through `TaskList(**...)`. -/
def get_lists (limit : Option Int) (server : Request → Response) :
    Except Exc (List TaskList) :=
  let resp := server ⟨"GET", base_api_url ++ "lists?$top=" ++ pyStr limit, none⟩
  if resp.ok then
    match resp.content.getItem "value" with
    | .error e => .error e
    | .ok v =>
      match pyIter v with
      | .error e => .error e
      | .ok items => taskListsOf items
  else .error (.api (PymstodoError.ofStatus resp.status_code resp.reason))

/-- `ToDoConnection.create_list` (client.py lines 312-332). -/
def create_list (name : String) (server : Request → Response) : Except Exc TaskList :=
  let resp := server ⟨"POST", base_api_url ++ "lists",
    some (.obj [("displayName", .str name)])⟩
  if resp.ok then taskListOf resp.content
  else .error (.api (PymstodoError.ofStatus resp.status_code resp.reason))

/-- `ToDoConnection.get_list` (client.py lines 334-354). -/
def get_list (list_id : String) (server : Request → Response) : Except Exc TaskList :=
  let resp := server ⟨"GET", base_api_url ++ "lists/" ++ list_id, none⟩
  if resp.ok then taskListOf resp.content
  else .error (.api (PymstodoError.ofStatus resp.status_code resp.reason))

/-- `ToDoConnection.update_list` (client.py lines 356-376). -/
def update_list (list_id : String) (list_data : List (String × Json))
    (server : Request → Response) : Except Exc TaskList :=
  let resp := server ⟨"PATCH", base_api_url ++ "lists/" ++ list_id,
    some (.obj list_data)⟩
  if resp.ok then taskListOf resp.content
  else .error (.api (PymstodoError.ofStatus resp.status_code resp.reason))

/-- `ToDoConnection.delete_list` (client.py lines 378-395). -/
def delete_list (list_id : String) (server : Request → Response) : Except Exc Bool :=
  let resp := server ⟨"DELETE", base_api_url ++ "lists/" ++ list_id, none⟩
  if resp.ok then .ok true
  else .error (.api (PymstodoError.ofStatus resp.status_code resp.reason))

/-! ### Paginated task listing (`get_tasks`, client.py lines 397-435) -/

/-- `limit or 1000` (client.py line 418): Python `or` takes the right operand
whenever the left is falsy, i.e. for both `None` and `0`. -/
def effLimit : Option Int → Int
  | none => 1000
  | some l => if l = 0 then 1000 else l

/-- The status-filter lookup table `filters` (client.py lines 413-417). -/
def filters : TaskStatusFilter → Option String
  | .COMPLETED => some "filter=status eq \x27completed\x27"
  | .NOT_COMPLETED => some "filter=status ne \x27completed\x27"
  | .ALL => none

/-- The query string built on client.py lines 419-423:
`'&$'.join(filter(None, params))` where `params` pairs the status filter
with `top={eff_limit}`; `filter(None, ...)` drops falsy entries. -/
def get_tasks_params_str (limit : Option Int) (status : Option TaskStatusFilter) : String :=
  let params : List (Option String) :=
    [filters (status.getD TaskStatusFilter.NOT_COMPLETED),
     some ("top=" ++ toString (effLimit limit))]
  String.intercalate "&$" ((params.filterMap id).filter (fun s => s ≠ ""))

/-- The initial request URL of `get_tasks` (client.py line 424). -/
def get_tasks_url (list_id : String) (limit : Option Int)
    (status : Option TaskStatusFilter) : String :=
  base_api_url ++ "lists/" ++ list_id ++ "/tasks?$" ++ get_tasks_params_str limit status

/-- One page served by the paginated task-listing endpoint: HTTP status,
reason phrase, and the decoded `value` array.  The page chain is the list of
pages reachable through `@odata.nextLink`; a page's next-link is present
exactly when further pages of the chain remain. -/
structure Page where
  status_code : Nat
  reason : String
  value : List Json

/-- `requests.Response.ok` for a page. -/
def Page.ok (p : Page) : Bool := p.status_code < 400

/-- The `while` loop of `get_tasks` (client.py lines 425-432):
`while (len(contents) < eff_limit or eff_limit <= 0) and url:` fetch the
page, raise on a non-ok status, follow the next-link, and extend `contents`
with the page's `value` array.  Returns the accumulated items together with
the number of pages fetched; an empty remaining chain is the absent URL. -/
def fetch_pages (eff_limit : Int) (contents : List Json) :
    List Page → Except Exc (List Json × Nat)
  | [] => .ok (contents, 0)
  | p :: rest =>
    if (contents.length : Int) < eff_limit ∨ eff_limit ≤ 0 then
      if p.ok then
        match fetch_pages eff_limit (contents ++ p.value) rest with
        | .ok (c, n) => .ok (c, n + 1)
        | .error e => .error e
      else .error (.api (PymstodoError.ofStatus p.status_code p.reason))
    else .ok (contents, 0)

/-- Python slice `xs[:l]` for an arbitrary integer `l`: a nonnegative bound
keeps the first `l` items, a negative bound drops the last `|l|` items. -/
def pySlice {α : Type} (l : Int) (xs : List α) : List α :=
  if 0 ≤ l then xs.take l.toNat else xs.take (xs.length - (-l).toNat)

/-- `ToDoConnection.get_tasks` (client.py lines 397-435), after the token
refresh, against a page chain: run the pagination loop with
`eff_limit = limit or 1000`, then apply `contents[:limit]` when `limit` is
truthy (`if limit:` is skipped for both `None` and `0`), and map the result
through `Task(**...)`.  Also returns the number of pages fetched. -/
def get_tasks (limit : Option Int) (pages : List Page) :
    Except Exc (List Task × Nat) :=
  match fetch_pages (effLimit limit) [] pages with
  | .error e => .error e
  | .ok (contents, n) =>
    let contents := match limit with
      | none => contents
      | some l => if l = 0 then contents else pySlice l contents
    (tasksOfContents contents).map (fun ts => (ts, n))

/-! ### Task CRUD -/

/-- `ToDoConnection.create_task` (client.py lines 437-464): the request body
starts from `{'title': title}`, adds `dueDateTime` when `due_date` is given
(a `datetime` is always truthy), and adds `body` when `body_text` is truthy
(in particular an empty string attaches no body). -/
def create_task (env : DatetimeEnv) (title : String) (list_id : String)
    (due_date : Option Int) (body_text : Option String)
    (server : Request → Response) : Except Exc Task :=
  let task_data := [("title", Json.str title)]
  let task_data := match due_date with
    | some d => task_data ++
        [("dueDateTime", Json.obj
          [("dateTime", .str (env.strftime d)), ("timeZone", .str "UTC")])]
    | none => task_data
  let task_data := match body_text with
    | some s =>
      if s ≠ "" then task_data ++
        [("body", Json.obj [("content", .str s), ("contentType", .str "text")])]
      else task_data
    | none => task_data
  let resp := server ⟨"POST", base_api_url ++ "lists/" ++ list_id ++ "/tasks",
    some (.obj task_data)⟩
  if resp.ok then taskOf resp.content
  else .error (.api (PymstodoError.ofStatus resp.status_code resp.reason))

/-- `ToDoConnection.get_task` (client.py lines 466-486). -/
def get_task (task_id : String) (list_id : String) (server : Request → Response) :
    Except Exc Task :=
  let resp := server ⟨"GET",
    base_api_url ++ "lists/" ++ list_id ++ "/tasks/" ++ task_id, none⟩
  if resp.ok then taskOf resp.content
  else .error (.api (PymstodoError.ofStatus resp.status_code resp.reason))

/-- The single PATCH request issued by `update_task` (client.py line 503). -/
def update_task_request (task_id : String) (list_id : String)
    (task_data : List (String × Json)) : Request :=
  ⟨"PATCH", base_api_url ++ "lists/" ++ list_id ++ "/tasks/" ++ task_id,
   some (.obj task_data)⟩

/-- `ToDoConnection.update_task` (client.py lines 488-509). -/
def update_task (task_id : String) (list_id : String)
    (task_data : List (String × Json)) (server : Request → Response) :
    Except Exc Task :=
  let resp := server (update_task_request task_id list_id task_data)
  if resp.ok then taskOf resp.content
  else .error (.api (PymstodoError.ofStatus resp.status_code resp.reason))

/-- `ToDoConnection.delete_task` (client.py lines 511-529). -/
def delete_task (task_id : String) (list_id : String) (server : Request → Response) :
    Except Exc Bool :=
  let resp := server ⟨"DELETE",
    base_api_url ++ "lists/" ++ list_id ++ "/tasks/" ++ task_id, none⟩
  if resp.ok then .ok true
  else .error (.api (PymstodoError.ofStatus resp.status_code resp.reason))

/-- `ToDoConnection.complete_task` (client.py lines 531-543):
`return self.update_task(task_id, list_id, status='completed')`. -/
def complete_task (task_id : String) (list_id : String)
    (server : Request → Response) : Except Exc Task :=
  update_task task_id list_id [("status", Json.str "completed")] server

/-- The concatenation of the `value` arrays of a page chain, in page order. -/
def allValues (pages : List Page) : List Json :=
  (pages.map Page.value).flatten

/-! ## Concrete sample data used to evaluate the model -/

/-- A sample stored credential with `expires_at = 1000`. -/
def tok0 : Token :=
  ⟨"Bearer", ["Tasks.ReadWrite"], 3600, 3600, "at0", "rt0", "it0", 1000⟩

/-- A sample credential as returned by a refresh exchange. -/
def tok1 : Token :=
  ⟨"Bearer", ["Tasks.ReadWrite"], 3600, 3600, "at1", "rt1", "it1", 5000⟩

/-- A concrete datetime environment. -/
def datetimeEnv0 : DatetimeEnv :=
  ⟨fun _ => .error (.valueError "bad iso"), fun z => .ok z, fun d _ => d,
   fun _ => "1970-01-01T00:00:00.0000000"⟩

/-- A two-page chain: page 1 carries tasks A, B, C and a next-link,
page 2 carries task D and no next-link. -/
def pagesEx : List Page :=
  [⟨200, "OK", [Json.obj [("id", Json.str "A")], Json.obj [("id", Json.str "B")],
      Json.obj [("id", Json.str "C")]]⟩,
   ⟨200, "OK", [Json.obj [("id", Json.str "D")]]⟩]

/-! ## Basic lemmas -/

theorem allValues_nil : allValues [] = [] := rfl

theorem allValues_cons (p : Page) (rest : List Page) :
    allValues (p :: rest) = p.value ++ allValues rest := rfl

theorem allValues_append (l₁ l₂ : List Page) :
    allValues (l₁ ++ l₂) = allValues l₁ ++ allValues l₂ := by
  simp [allValues]

/-- When the effective limit is nonpositive, the pagination loop follows the
chain to exhaustion and accumulates every page's items. -/
theorem fetch_pages_nonpos (eff : Int) (heff : eff ≤ 0) :
    ∀ (pages : List Page) (acc : List Json), (∀ p ∈ pages, p.status_code < 400) →
      fetch_pages eff acc pages = .ok (acc ++ allValues pages, pages.length)
  | [], acc, _ => by simp [fetch_pages, allValues_nil]
  | p :: rest, acc, hok => by
    have hp : p.status_code < 400 := hok p (List.mem_cons_self p rest)
    have ih := fetch_pages_nonpos eff heff rest (acc ++ p.value)
      (fun q hq => hok q (List.mem_cons_of_mem p hq))
    simp only [fetch_pages]
    rw [if_pos (Or.inr heff)]
    simp [Page.ok, hp, ih, allValues_cons, List.length_cons]

/-- Characterisation of the pagination loop for a positive effective limit
over a chain of ok pages: some prefix of `n` pages is consumed; every page
of that prefix was fetched while the accumulated count was still below the
limit; and if the chain was not exhausted, the final count reached the
limit. -/
theorem fetch_pages_pos_char (l : Int) (hl : 0 < l) :
    ∀ (pages : List Page) (acc : List Json), (∀ p ∈ pages, p.status_code < 400) →
      ∃ n, n ≤ pages.length ∧
        fetch_pages l acc pages = .ok (acc ++ allValues (pages.take n), n) ∧
        (∀ k, k < n → ((acc ++ allValues (pages.take k)).length : Int) < l) ∧
        (n < pages.length → l ≤ ((acc ++ allValues (pages.take n)).length : Int))
  | [], acc, _ =>
    ⟨0, by simp [fetch_pages, allValues_nil]⟩
  | p :: rest, acc, hok => by
    by_cases hacc : (acc.length : Int) < l
    · have hp : p.status_code < 400 := hok p (List.mem_cons_self p rest)
      obtain ⟨n', hn'le, heq, hlt, hlast⟩ :=
        fetch_pages_pos_char l hl rest (acc ++ p.value)
          (fun q hq => hok q (List.mem_cons_of_mem p hq))
      refine ⟨n' + 1, Nat.succ_le_succ hn'le, ?_, ?_, ?_⟩
      · simp only [fetch_pages]
        rw [if_pos (Or.inl hacc)]
        simp [Page.ok, hp, heq, List.take_succ_cons, allValues_cons,
          List.append_assoc]
      · intro k hk
        match k with
        | 0 => simpa using hacc
        | j + 1 =>
          have := hlt j (Nat.lt_of_succ_lt_succ hk)
          simpa [List.take_succ_cons, allValues_cons, List.append_assoc] using this
      · intro hlen
        have := hlast (Nat.lt_of_succ_lt_succ hlen)
        simpa [List.take_succ_cons, allValues_cons, List.append_assoc] using this
    · refine ⟨0, Nat.zero_le _, ?_, by omega, ?_⟩
      · simp only [fetch_pages]
        rw [if_neg (by omega)]
        simp [allValues_nil]
      · intro _
        simpa [allValues_nil] using not_lt.mp hacc

/-! ## Claim theorems -/

/-- C3: for every stored credential and current time `now`, the token-refresh
step performs no network call (and leaves the credential unchanged) when
`now < expires_at - 300`; and when `now ≥ expires_at - 300` it performs
exactly one refresh exchange and replaces the entire stored credential with
the server's response. -/
theorem refresh_token_fresh_and_expiring (now : ℚ) (refreshCall : Except Exc Token)
    (tok : Token) :
    (now < tok.expires_at - 300 →
      _refresh_token now refreshCall tok = (.ok (), tok, 0)) ∧
    (tok.expires_at - 300 ≤ now → ∀ t', refreshCall = .ok t' →
      _refresh_token now refreshCall tok = (.ok (), t', 1)) := by
  constructor
  · intro h
    have h' : ¬(now ≥ tok.expires_at - 300) := not_le.mpr h
    simp [_refresh_token, h']
  · intro h t' hc
    subst hc
    have h' : now ≥ tok.expires_at - 300 := h
    simp [_refresh_token, h']

/-- Witness for C3 at concrete inputs: `now = 0` is before
`expires_at - 300 = 700` (no call, credential kept); `now = 2000` is past it
(one call, credential fully replaced by the exchange's response). -/
theorem refresh_token_fresh_and_expiring_witness :
    _refresh_token 0 (.ok tok1) tok0 = (.ok (), tok0, 0) ∧
    _refresh_token 2000 (.ok tok1) tok0 = (.ok (), tok1, 1) :=
  ⟨(refresh_token_fresh_and_expiring 0 (.ok tok1) tok0).1 (by norm_num [tok0]),
   (refresh_token_fresh_and_expiring 2000 (.ok tok1) tok0).2
     (by norm_num [tok0]) tok1 rfl⟩

/-- C6: when the credential is expiring and the refresh exchange fails, the
failure propagates uncaught and the stored credential after the step is
exactly the credential held before (no partial overwrite). -/
theorem refresh_failure_preserves_token (now : ℚ) (tok : Token) (e : Exc)
    (h : tok.expires_at - 300 ≤ now) :
    _refresh_token now (.error e) tok = (.error e, tok, 1) := by
  have h' : now ≥ tok.expires_at - 300 := h
  simp [_refresh_token, h']

/-- Witness for C6 at concrete inputs. -/
theorem refresh_failure_preserves_token_witness :
    _refresh_token 2000 (.error (.typeError "connection aborted")) tok0
      = (.error (.typeError "connection aborted"), tok0, 1) :=
  refresh_failure_preserves_token 2000 tok0 (.typeError "connection aborted")
    (by norm_num [tok0])

/-- C7: for every string that is a key of the mapping table, `resolve`
returns the mapped standard zone name; for every string not in the table it
returns its input unchanged.  The function is total, so it never raises. -/
theorem windows_zone_resolution (table : List (String × String)) (s : String) :
    (∀ v, table.lookup s = some v → get_zoneinfo_name_by_windows_zone table s = v) ∧
    (table.lookup s = none → get_zoneinfo_name_by_windows_zone table s = s) := by
  constructor
  · intro v hv
    simp [get_zoneinfo_name_by_windows_zone, hv]
  · intro hv
    simp [get_zoneinfo_name_by_windows_zone, hv]

/-- Witness for C7: a mapped vendor name resolves to its standard name, an
unknown name passes through unchanged. -/
theorem windows_zone_resolution_witness :
    get_zoneinfo_name_by_windows_zone
        [("Pacific Standard Time", "America/Los_Angeles")] "Pacific Standard Time"
      = "America/Los_Angeles" ∧
    get_zoneinfo_name_by_windows_zone
        [("Pacific Standard Time", "America/Los_Angeles")] "Leprechaun Time"
      = "Leprechaun Time" :=
  ⟨(windows_zone_resolution [("Pacific Standard Time", "America/Los_Angeles")]
      "Pacific Standard Time").1 "America/Los_Angeles" rfl,
   (windows_zone_resolution [("Pacific Standard Time", "America/Los_Angeles")]
      "Leprechaun Time").2 rfl⟩

/-- C8: constructing a `Task` from a payload that carries `title`, `status`
and a `body` object with a `content` entry, then reading back `title`,
`status` and `body_text`, reproduces the original payload values with no
transformation. -/
theorem task_round_trip (kwargs : List (String × Json)) (tv sv : Json)
    (bf : List (String × Json)) (cv : Json)
    (ht : kwargs.lookup "title" = some tv)
    (hs : kwargs.lookup "status" = some sv)
    (hb : kwargs.lookup "body" = some (.obj bf))
    (hc : bf.lookup "content" = some cv) :
    (Task.fromKwargs kwargs).title = some tv ∧
    (Task.fromKwargs kwargs).status = some sv ∧
    (Task.fromKwargs kwargs).body_text = .ok (some cv) := by
  refine ⟨by simp [Task.fromKwargs, ht], by simp [Task.fromKwargs, hs], ?_⟩
  have hbf : bf.isEmpty = false := by
    cases bf with
    | nil => simp [List.lookup] at hc
    | cons a t => rfl
  simp [Task.fromKwargs, Task.body_text, hb, Json.truthy, hbf, Json.getItem, hc,
    Except.map]

/-- Witness for C8 at a concrete payload. -/
theorem task_round_trip_witness :
    (Task.fromKwargs [("title", .str "buy milk"), ("status", .str "notStarted"),
        ("body", .obj [("content", .str "2 litres"), ("contentType", .str "text")])]).title
      = some (.str "buy milk") ∧
    (Task.fromKwargs [("title", .str "buy milk"), ("status", .str "notStarted"),
        ("body", .obj [("content", .str "2 litres"), ("contentType", .str "text")])]).status
      = some (.str "notStarted") ∧
    (Task.fromKwargs [("title", .str "buy milk"), ("status", .str "notStarted"),
        ("body", .obj [("content", .str "2 litres"), ("contentType", .str "text")])]).body_text
      = .ok (some (.str "2 litres")) :=
  task_round_trip _ (.str "buy milk") (.str "notStarted") _ (.str "2 litres")
    rfl rfl rfl rfl

/-- C9: `complete_task(task_id, list_id)` is observationally identical to
`update_task(task_id, list_id, status='completed')`: its outcome depends on
the transport only through the single PATCH request
`update_task_request task_id list_id [("status", "completed")]`, and two
transports that agree on that request give the same result for the two
calls. -/
theorem complete_task_is_update_task (task_id list_id : String)
    (server server' : Request → Response)
    (h : server (update_task_request task_id list_id [("status", Json.str "completed")])
       = server' (update_task_request task_id list_id [("status", Json.str "completed")])) :
    complete_task task_id list_id server
      = update_task task_id list_id [("status", Json.str "completed")] server' := by
  simp only [complete_task, update_task, h]

/-- Witness for C9 at a concrete transport. -/
theorem complete_task_is_update_task_witness :
    complete_task "task-1" "list-1"
        (fun _ => ⟨200, "OK", .obj [("id", .str "task-1"), ("status", .str "completed")]⟩)
      = update_task "task-1" "list-1" [("status", Json.str "completed")]
        (fun _ => ⟨200, "OK", .obj [("id", .str "task-1"), ("status", .str "completed")]⟩) :=
  complete_task_is_update_task "task-1" "list-1" _ _ rfl

/-- C10: for every `TaskList`, regardless of its `list_id`, `link` returns
the same constant string with the `{self.list_id}` placeholder left
textually unexpanded, because the template is not an f-string. -/
theorem task_list_link_constant (t : TaskList) :
    t.link = "href=https://to-do.live.com/tasks/\x7bself.list_id\x7d" := rfl

/-- C4 counterexample: constructing a `Task`/`TaskList` from a payload with
no fields never raises, but reading `task_status` (resp.
`wellknown_list_name`) then raises `ValueError` — `TaskStatus(None)` /
`WellknownListName(None)` — instead of returning an absent value, so the
claim fails for these two accessors. -/
theorem task_status_raises_on_missing :
    (Task.fromKwargs []).task_status
      = .error (.valueError "is not a valid TaskStatus") ∧
    (TaskList.fromKwargs []).wellknown_list_name
      = .error (.valueError "is not a valid WellknownListName") :=
  ⟨rfl, rfl⟩

/-- C4 as amended: constructing a `Task` or `TaskList` from any payload never
raises (the constructors are total functions into the record types), and the
accessors `body_text` and the six date properties return an absent value
when their field is missing; but `task_status` and `wellknown_list_name`
raise `ValueError` when their underlying field is missing. -/
theorem task_missing_fields_behavior (kwargs : List (String × Json))
    (env : DatetimeEnv) (table : List (String × String)) :
    (kwargs.lookup "body" = none →
      (Task.fromKwargs kwargs).body_text = .ok none) ∧
    (kwargs.lookup "completedDateTime" = none →
      (Task.fromKwargs kwargs).completed_date env table = .ok none) ∧
    (kwargs.lookup "createdDateTime" = none →
      (Task.fromKwargs kwargs).created_date env = .ok none) ∧
    (kwargs.lookup "dueDateTime" = none →
      (Task.fromKwargs kwargs).due_date env table = .ok none) ∧
    (kwargs.lookup "lastModifiedDateTime" = none →
      (Task.fromKwargs kwargs).last_mod_date env = .ok none) ∧
    (kwargs.lookup "reminderDateTime" = none →
      (Task.fromKwargs kwargs).reminder_date env table = .ok none) ∧
    (kwargs.lookup "startDateTime" = none →
      (Task.fromKwargs kwargs).start_date env table = .ok none) ∧
    (kwargs.lookup "status" = none →
      (Task.fromKwargs kwargs).task_status
        = .error (.valueError "is not a valid TaskStatus")) ∧
    (kwargs.lookup "wellknownListName" = none →
      (TaskList.fromKwargs kwargs).wellknown_list_name
        = .error (.valueError "is not a valid WellknownListName")) := by
  refine ⟨fun h => ?_, fun h => ?_, fun h => ?_, fun h => ?_, fun h => ?_,
    fun h => ?_, fun h => ?_, fun h => ?_, fun h => ?_⟩
  · simp [Task.fromKwargs, Task.body_text, h]
  · simp [Task.fromKwargs, Task.completed_date, h]
  · simp [Task.fromKwargs, Task.created_date, h]
  · simp [Task.fromKwargs, Task.due_date, h]
  · simp [Task.fromKwargs, Task.last_mod_date, h]
  · simp [Task.fromKwargs, Task.reminder_date, h]
  · simp [Task.fromKwargs, Task.start_date, h]
  · simp [Task.fromKwargs, Task.task_status, TaskStatus.ofValue, h]
  · simp [TaskList.fromKwargs, TaskList.wellknown_list_name,
      WellknownListName.ofValue, Except.map, h]

/-- Witness for C4 (amended) at the empty payload and a concrete datetime
environment. -/
theorem task_missing_fields_behavior_witness :
    (Task.fromKwargs []).body_text = .ok none ∧
    (Task.fromKwargs []).completed_date datetimeEnv0 [] = .ok none ∧
    (Task.fromKwargs []).created_date datetimeEnv0 = .ok none ∧
    (Task.fromKwargs []).due_date datetimeEnv0 [] = .ok none ∧
    (Task.fromKwargs []).last_mod_date datetimeEnv0 = .ok none ∧
    (Task.fromKwargs []).reminder_date datetimeEnv0 [] = .ok none ∧
    (Task.fromKwargs []).start_date datetimeEnv0 [] = .ok none ∧
    (Task.fromKwargs []).task_status
      = .error (.valueError "is not a valid TaskStatus") ∧
    (TaskList.fromKwargs []).wellknown_list_name
      = .error (.valueError "is not a valid WellknownListName") := by
  obtain ⟨h1, h2, h3, h4, h5, h6, h7, h8, h9⟩ :=
    task_missing_fields_behavior [] datetimeEnv0 []
  exact ⟨h1 rfl, h2 rfl, h3 rfl, h4 rfl, h5 rfl, h6 rfl, h7 rfl, h8 rfl, h9 rfl⟩

/-- C5 counterexample: a 304 Not Modified response is not a success status
(it is not 2xx), yet `get_lists` does not raise: `requests`' `Response.ok`
is `status_code < 400`, so the operation decodes the body and returns a
value. -/
theorem get_lists_304_returns_value :
    get_lists (some 99)
        (fun _ => ⟨304, "Not Modified", .obj [("value", .arr [])]⟩)
      = .ok [] := rfl

/-- C5 as amended: every CRUD operation raises the single uniform error type
carrying the response's exact numeric status code and reason phrase, and
returns no value, whenever the response status is at least 400 — requests'
`ok` predicate — rather than on every non-2xx status (3xx responses are
treated as success). -/
theorem crud_error_propagation (resp : Response) (h : 400 ≤ resp.status_code)
    (limit : Option Int) (name list_id task_id : String)
    (list_data task_data : List (String × Json)) (env : DatetimeEnv)
    (title : String) (due : Option Int) (body : Option String)
    (vs : List Json) (rest : List Page) (acc : List Json) (eff : Int)
    (hloop : (acc.length : Int) < eff ∨ eff ≤ 0) :
    get_lists limit (fun _ => resp)
      = .error (.api (.ofStatus resp.status_code resp.reason)) ∧
    create_list name (fun _ => resp)
      = .error (.api (.ofStatus resp.status_code resp.reason)) ∧
    get_list list_id (fun _ => resp)
      = .error (.api (.ofStatus resp.status_code resp.reason)) ∧
    update_list list_id list_data (fun _ => resp)
      = .error (.api (.ofStatus resp.status_code resp.reason)) ∧
    delete_list list_id (fun _ => resp)
      = .error (.api (.ofStatus resp.status_code resp.reason)) ∧
    fetch_pages eff acc (⟨resp.status_code, resp.reason, vs⟩ :: rest)
      = .error (.api (.ofStatus resp.status_code resp.reason)) ∧
    create_task env title list_id due body (fun _ => resp)
      = .error (.api (.ofStatus resp.status_code resp.reason)) ∧
    get_task task_id list_id (fun _ => resp)
      = .error (.api (.ofStatus resp.status_code resp.reason)) ∧
    update_task task_id list_id task_data (fun _ => resp)
      = .error (.api (.ofStatus resp.status_code resp.reason)) ∧
    delete_task task_id list_id (fun _ => resp)
      = .error (.api (.ofStatus resp.status_code resp.reason)) ∧
    complete_task task_id list_id (fun _ => resp)
      = .error (.api (.ofStatus resp.status_code resp.reason)) := by
  have hok : resp.ok = false := by
    simp only [Response.ok, decide_eq_false_iff_not, not_lt]
    omega
  refine ⟨?_, ?_, ?_, ?_, ?_, ?_, ?_, ?_, ?_, ?_, ?_⟩
  · simp [get_lists, hok]
  · simp [create_list, hok]
  · simp [get_list, hok]
  · simp [update_list, hok]
  · simp [delete_list, hok]
  · have hpage : (Page.mk resp.status_code resp.reason vs).ok = false := by
      simp only [Page.ok, decide_eq_false_iff_not, not_lt]
      omega
    simp only [fetch_pages]
    rw [if_pos hloop]
    simp [hpage]
  · simp [create_task, hok]
  · simp [get_task, hok]
  · simp [update_task, hok]
  · simp [delete_task, hok]
  · simp [complete_task, update_task, hok]

/-- Witness for C5 (amended) at a concrete 404 response. -/
theorem crud_error_propagation_witness :
    get_lists (some 99) (fun _ => ⟨404, "Not Found", .null⟩)
      = .error (.api (.ofStatus 404 "Not Found")) ∧
    create_list "groceries" (fun _ => ⟨404, "Not Found", .null⟩)
      = .error (.api (.ofStatus 404 "Not Found")) ∧
    get_list "l1" (fun _ => ⟨404, "Not Found", .null⟩)
      = .error (.api (.ofStatus 404 "Not Found")) ∧
    update_list "l1" [] (fun _ => ⟨404, "Not Found", .null⟩)
      = .error (.api (.ofStatus 404 "Not Found")) ∧
    delete_list "l1" (fun _ => ⟨404, "Not Found", .null⟩)
      = .error (.api (.ofStatus 404 "Not Found")) ∧
    fetch_pages 1000 [] [⟨404, "Not Found", []⟩]
      = .error (.api (.ofStatus 404 "Not Found")) ∧
    create_task datetimeEnv0 "t" "l1" none none (fun _ => ⟨404, "Not Found", .null⟩)
      = .error (.api (.ofStatus 404 "Not Found")) ∧
    get_task "t1" "l1" (fun _ => ⟨404, "Not Found", .null⟩)
      = .error (.api (.ofStatus 404 "Not Found")) ∧
    update_task "t1" "l1" [] (fun _ => ⟨404, "Not Found", .null⟩)
      = .error (.api (.ofStatus 404 "Not Found")) ∧
    delete_task "t1" "l1" (fun _ => ⟨404, "Not Found", .null⟩)
      = .error (.api (.ofStatus 404 "Not Found")) ∧
    complete_task "t1" "l1" (fun _ => ⟨404, "Not Found", .null⟩)
      = .error (.api (.ofStatus 404 "Not Found")) :=
  crud_error_propagation ⟨404, "Not Found", .null⟩ (by decide)
    (some 99) "groceries" "l1" "t1" [] [] datetimeEnv0 "t" none none
    [] [] [] 1000 (Or.inl (by decide))

/-- C1 counterexample: with `limit = -1` over a single-page chain holding one
item, the loop does follow the chain to exhaustion (one page fetched), but
`contents[:limit]` is the negative slice `contents[:-1]`, which drops the
accumulated item: the call returns the empty list rather than every
accumulated item. -/
theorem get_tasks_negative_limit_truncates :
    get_tasks (some (-1)) [⟨200, "OK", [Json.obj [("id", Json.str "a")]]⟩]
      = .ok ([], 1) ∧
    (allValues [⟨200, "OK", [Json.obj [("id", Json.str "a")]]⟩]).length = 1 :=
  ⟨rfl, rfl⟩

/-- C1 as amended: `limit or 1000` and `contents[:limit]` give three regimes.
A negative limit makes the loop follow next-page links until the server
supplies no link, but the result is then the accumulation with its last
`|limit|` items dropped (Python negative slice), not the full accumulation.
A limit of `0` is not unbounded: it behaves exactly like the default
`limit = None` (effective page bound 1000, no truncation).  A positive limit
truncates the accumulation to its first `min(limit, accumulated)` items. -/
theorem get_tasks_limit_semantics :
    (∀ (l : Int), l < 0 → ∀ (pages : List Page),
      (∀ p ∈ pages, p.status_code < 400) →
      get_tasks (some l) pages
        = (tasksOfContents ((allValues pages).take
            ((allValues pages).length - l.natAbs))).map
            (fun ts => (ts, pages.length))) ∧
    (∀ pages, get_tasks (some 0) pages = get_tasks none pages) ∧
    (∀ (l : Int), 0 < l → ∀ (pages : List Page) (c : List Json) (n : Nat),
      fetch_pages l [] pages = .ok (c, n) →
      get_tasks (some l) pages
        = (tasksOfContents (c.take l.toNat)).map (fun ts => (ts, n)) ∧
      (c.take l.toNat).length = min l.toNat c.length) := by
  refine ⟨?_, ?_, ?_⟩
  · intro l hl pages hok
    have hne : ¬(l = 0) := by omega
    have hfetch := fetch_pages_nonpos l (le_of_lt hl) pages [] hok
    rw [List.nil_append] at hfetch
    have habs : (-l).toNat = l.natAbs := by omega
    simp only [get_tasks, effLimit, if_neg hne, hfetch, pySlice,
      if_neg (by omega : ¬((0 : Int) ≤ l)), habs]
  · intro pages
    rfl
  · intro l hl pages c n hfetch
    have hne : ¬(l = 0) := by omega
    constructor
    · simp only [get_tasks, effLimit, if_neg hne, hfetch, pySlice,
        if_pos (le_of_lt hl)]
    · rw [List.length_take]

/-- Witness for C1 (amended) over the two-page sample chain, at `limit = -2`
(exhaustive fetch then the last two items dropped), `limit = 0` (same as
`limit = None`), and `limit = 3` (first three accumulated items kept). -/
theorem get_tasks_limit_semantics_witness :
    get_tasks (some (-2)) pagesEx
      = (tasksOfContents ((allValues pagesEx).take
          ((allValues pagesEx).length - (-2 : Int).natAbs))).map
          (fun ts => (ts, pagesEx.length)) ∧
    get_tasks (some 0) pagesEx = get_tasks none pagesEx ∧
    (get_tasks (some 3) pagesEx
        = (tasksOfContents ([Json.obj [("id", Json.str "A")],
            Json.obj [("id", Json.str "B")],
            Json.obj [("id", Json.str "C")]].take (3 : Int).toNat)).map
            (fun ts => (ts, 1)) ∧
      ([Json.obj [("id", Json.str "A")], Json.obj [("id", Json.str "B")],
          Json.obj [("id", Json.str "C")]].take (3 : Int).toNat).length
        = min (3 : Int).toNat
            [Json.obj [("id", Json.str "A")], Json.obj [("id", Json.str "B")],
             Json.obj [("id", Json.str "C")]].length) :=
  ⟨get_tasks_limit_semantics.1 (-2) (by decide) pagesEx (by decide),
   get_tasks_limit_semantics.2.1 pagesEx,
   get_tasks_limit_semantics.2.2 3 (by decide) pagesEx
     [Json.obj [("id", Json.str "A")], Json.obj [("id", Json.str "B")],
      Json.obj [("id", Json.str "C")]] 1 rfl⟩

/-- C2: over a chain of N ok pages, with a positive limit at least the total
item count the listing returns the concatenation of all pages' value arrays
in page order; with a positive limit below the total it returns exactly
`limit` items, the pages fetched are an initial segment of the chain, and
every fetched page was requested while the accumulated count was still below
the limit (no page is fetched after the count first reaches the limit). -/
theorem get_tasks_pagination (pages : List Page) (l : Int)
    (hok : ∀ p ∈ pages, p.status_code < 400) (hl : 0 < l) :
    (((allValues pages).length : Int) ≤ l →
      ∃ n, get_tasks (some l) pages
        = (tasksOfContents (allValues pages)).map (fun ts => (ts, n))) ∧
    (l < ((allValues pages).length : Int) →
      ∃ c n, fetch_pages l [] pages = .ok (c, n) ∧
        c = allValues (pages.take n) ∧
        get_tasks (some l) pages
          = (tasksOfContents (c.take l.toNat)).map (fun ts => (ts, n)) ∧
        (c.take l.toNat).length = l.toNat ∧
        ∀ k, k < n → ((allValues (pages.take k)).length : Int) < l) := by
  have hne : ¬(l = 0) := by omega
  obtain ⟨n, hnle, heq, hlt, hlast⟩ := fetch_pages_pos_char l hl pages [] hok
  simp only [List.nil_append] at heq hlt hlast
  constructor
  · intro htot
    refine ⟨n, ?_⟩
    have hc : allValues (pages.take n) = allValues pages := by
      rcases Nat.lt_or_ge n pages.length with hn | hn
      · have h1 := hlast hn
        have h2 : (allValues (pages.take n)).length
            + (allValues (pages.drop n)).length = (allValues pages).length := by
          conv_rhs => rw [← List.take_append_drop n pages]
          rw [allValues_append, List.length_append]
        have h4 : allValues (pages.drop n) = [] :=
          List.length_eq_zero.mp (by omega)
        conv_rhs => rw [← List.take_append_drop n pages]
        rw [allValues_append, h4, List.append_nil]
      · rw [List.take_of_length_le hn]
    rw [hc] at heq
    have htake : (allValues pages).take l.toNat = allValues pages :=
      List.take_of_length_le (by omega)
    simp only [get_tasks, effLimit, if_neg hne, heq, pySlice,
      if_pos (le_of_lt hl), htake]
  · intro htot
    refine ⟨allValues (pages.take n), n, heq, rfl, ?_, ?_, hlt⟩
    · simp only [get_tasks, effLimit, if_neg hne, heq, pySlice,
        if_pos (le_of_lt hl)]
    · rw [List.length_take]
      rcases Nat.lt_or_ge n pages.length with hn | hn
      · have := hlast hn
        omega
      · rw [List.take_of_length_le hn]
        omega

/-- Witness for C2: the spec's end-to-end example.  `limit = 2` over page 1 =
[A, B, C] (with next-link) and page 2 = [D] (without): the theorem's
below-total branch applies, and the call concretely yields exactly [A, B]
after fetching only page 1. -/
theorem get_tasks_pagination_witness :
    (∃ c n, fetch_pages 2 [] pagesEx = .ok (c, n) ∧
      c = allValues (pagesEx.take n) ∧
      get_tasks (some 2) pagesEx
        = (tasksOfContents (c.take (2 : Int).toNat)).map (fun ts => (ts, n)) ∧
      (c.take (2 : Int).toNat).length = (2 : Int).toNat ∧
      ∀ k, k < n → ((allValues (pagesEx.take k)).length : Int) < 2) ∧
    get_tasks (some 2) pagesEx
      = .ok ([Task.fromKwargs [("id", Json.str "A")],
              Task.fromKwargs [("id", Json.str "B")]], 1) :=
  ⟨(get_tasks_pagination pagesEx 2 (by decide) (by decide)).2 (by decide), rfl⟩

end Pymstodo
